import Mathlib

/-!
Verification of the `basket-token` Solana program
(`src/programs/basket-token/src/lib.rs`).

The program state and each instruction handler are shallowly embedded as
executable Lean definitions.  Machine integers are modelled as `Nat` with
explicit width bounds where overflow matters (`checked_*` operations return
`Option Nat`, mirroring Rust's checked arithmetic; the lossy `as u64` cast is
`% 2 ^ 64`).  Cross-program invocations (system transfer, token mint/burn,
Jupiter swap) are recorded as events; data read from caller-supplied accounts
is provided by an explicit context record.  A returned error means the host
runtime discards every state mutation of the failed instruction (Solana
transaction atomicity); the recorded state and events show how far execution
got before the error.
-/

namespace BasketToken

/-- 2^64, the modulus of `u64`. -/
def U64MOD : Nat := 2 ^ 64

/-- 2^128, the modulus of `u128`. -/
def U128MOD : Nat := 2 ^ 128

/-- `MAGNIFIER: u128 = 1_000_000_000` from the source. -/
def MAGNIFIER : Nat := 1000000000

/-- `MINIMUM_DEPOSIT: u64 = 10_000_000` from the source. -/
def MINIMUM_DEPOSIT : Nat := 10000000

/-- `MAX_TOKENS: usize = 10` from the source. -/
def MAX_TOKENS : Nat := 10

/-- `u8::checked_add`: `none` when the mathematical sum exceeds `u8::MAX`. -/
def checkedAdd8 (a b : Nat) : Option Nat :=
  if a + b ≤ 255 then some (a + b) else none

/-- `u64::checked_add`: `none` when the mathematical sum exceeds `u64::MAX`. -/
def checkedAdd64 (a b : Nat) : Option Nat :=
  if a + b < U64MOD then some (a + b) else none

/-- `checked_sub` on unsigned integers: `none` on underflow. -/
def checkedSub (a b : Nat) : Option Nat :=
  if b ≤ a then some (a - b) else none

/-- `u128::checked_mul`: `none` when the product exceeds `u128::MAX`. -/
def checkedMul128 (a b : Nat) : Option Nat :=
  if a * b < U128MOD then some (a * b) else none

/-- `checked_div`: `none` exactly on division by zero. -/
def checkedDiv (a b : Nat) : Option Nat :=
  if b = 0 then none else some (a / b)

/-- `TokenInfo { mint, weight, token_account }`; pubkeys are modelled as `Nat`
(`Pubkey::default()` is `0`), `weight: u8` as a `Nat` kept below 256. -/
structure TokenInfo where
  mint : Nat
  weight : Nat
  token_account : Nat
  deriving DecidableEq

/-- `BasketState`, the single persisted vault record. -/
structure BasketState where
  authority : Nat
  tokens : List TokenInfo
  total_supply : Nat
  bump : Nat
  max_tokens : Nat
  paused : Bool
  reentrancy_guard : Bool
  deriving DecidableEq

/-- The `BasketError` enum of the source. -/
inductive BasketError where
  | Unauthorized
  | InsufficientDeposit
  | MathOverflow
  | WeightOverflow
  | InvalidTokenCount
  | InvalidAccountCount
  | InvalidTokenMint
  | InvalidTokenOwner
  | SlippageExceeded
  | TooManyTokens
  | TokenNotFound
  | DuplicateToken
  | ProgramPaused
  | ReentrancyDetected
  | InsufficientBalance
  deriving DecidableEq

/-- An instruction aborts either with a `BasketError` raised by a `require!` /
checked-arithmetic site, with a failure propagated from a cross-program
invocation (`cpiFailure`), or with an Anchor accounts-struct `constraint`
violation checked before the handler body runs. -/
inductive ExecError where
  | basket (e : BasketError)
  | cpiFailure
  | constraint
  deriving DecidableEq

/-- Externally visible effects issued by a handler, in program order. -/
inductive Event where
  | solToBasket (amount : Nat)
  | mintShares (amount : Nat)
  | venueCall (leg : Nat) (inAmount : Nat)
  | burnShares (amount : Nat)
  | solToUser (amount : Nat)
  deriving DecidableEq

/-- Result of running a `Deposit` or `Redeem` handler: the error (if any), the
vault record at the point execution stopped, and the events issued so far.
When `err ≠ none` the Solana runtime rolls every effect back. -/
structure ExecResult where
  err : Option ExecError
  state : BasketState
  events : List Event
  deriving DecidableEq

/-- The `(mint, owner, amount)` data of an SPL token account, as deserialized
by `Account::<TokenAccount>::try_from`. -/
structure TokenAccountData where
  mint : Nat
  owner : Nat
  amount : Nat
  deriving DecidableEq

/-- Sum of the stored constituent weights as mathematical naturals. -/
def sumWeights (ts : List TokenInfo) : Nat :=
  (ts.map fun t => t.weight).sum

/-- The in-handler weight sum `basket.tokens.iter().map(|t| t.weight).sum::<u8>()`:
a `u8` accumulation, i.e. the mathematical sum reduced mod 256 (release-mode
wrapping semantics; for every state reachable through `add_token` the sum stays
at most 100, where the reduction is the identity). -/
def sumWeightsU8 (ts : List TokenInfo) : Nat :=
  sumWeights ts % 256

/-- The `initialize` handler.  `require!(max_tokens as usize <= MAX_TOKENS)`,
then the record is written with empty constituents and zeroed flags. -/
def initVault (authority maxTokens bump : Nat) : Except BasketError BasketState :=
  if MAX_TOKENS < maxTokens then .error .TooManyTokens
  else .ok { authority := authority, tokens := [], total_supply := 0,
             bump := bump, max_tokens := maxTokens, paused := false,
             reentrancy_guard := false }

/-- The `add_token` handler.  The leading authority test is Anchor's
`has_one = authority` constraint (checked before the handler body; the
handler's own identical `require!` is therefore not repeated).  On success the
new entry is pushed with `token_account: Pubkey::default()`. -/
def add_token (basket : BasketState) (caller token_mint weight : Nat) :
    Except BasketError BasketState :=
  if basket.authority ≠ caller then .error .Unauthorized
  else if basket.paused then .error .ProgramPaused
  else if ¬ basket.tokens.length < basket.max_tokens then .error .TooManyTokens
  else
    match checkedAdd8 (sumWeightsU8 basket.tokens) weight with
    | none => .error .WeightOverflow
    | some totalWeight =>
      if ¬ totalWeight ≤ 100 then .error .WeightOverflow
      else if basket.tokens.any fun t => t.mint = token_mint then
        .error .DuplicateToken
      else .ok { basket with
                 tokens := basket.tokens ++
                   [{ mint := token_mint, weight := weight, token_account := 0 }] }

/-- The `remove_token` handler: find the first entry with the given mint and
remove it. -/
def remove_token (basket : BasketState) (caller token_mint : Nat) :
    Except BasketError BasketState :=
  if basket.authority ≠ caller then .error .Unauthorized
  else if basket.paused then .error .ProgramPaused
  else
    match basket.tokens.findIdx? (fun t => t.mint = token_mint) with
    | none => .error .TokenNotFound
    | some i => .ok { basket with tokens := basket.tokens.eraseIdx i }

/-- The `set_paused` handler. -/
def set_paused (basket : BasketState) (caller : Nat) (p : Bool) :
    Except BasketError BasketState :=
  if basket.authority ≠ caller then .error .Unauthorized
  else .ok { basket with paused := p }

/-- The `withdraw_authority_sol` handler.  It reads only the authority field
and the basket account's lamports; on success it moves exactly `amount`
lamports from the basket to the authority.  The result is the pair
(basket lamports afterwards, lamports credited to the authority). -/
def withdraw_authority_sol (basket : BasketState)
    (caller basketLamports amount : Nat) : Except BasketError (Nat × Nat) :=
  if basket.authority ≠ caller then .error .Unauthorized
  else if basketLamports < amount then .error .InsufficientBalance
  else .ok (basketLamports - amount, amount)

/-- Caller-supplied execution context of `deposit`: account keys, lamport
balances, the deserialized data of `remaining_accounts[i*12 + 1]` for leg `i`
(`custody i`), the basket's lamport balance observed right after leg `i`'s
Jupiter call (`legLamports i`), and whether that call completed
(`venueOk i`). -/
structure DepositCtx where
  basket_key : Nat
  user_key : Nat
  user_lamports : Nat
  basket_lamports : Nat
  remaining_count : Nat
  custody : Nat → TokenAccountData
  legLamports : Nat → Nat
  venueOk : Nat → Bool

/-- The per-leg loop of `deposit` (source lines 248-303).  For leg `i` it
deserializes `remaining_accounts[i*12 + 1]`, requires its mint to equal the
constituent's mint and its owner to be the basket, issues the Jupiter call
with `in_amount = token_acc_data.amount`, then computes
`current_lamports.checked_sub(initial_lamports)` on the basket's lamport
balance and requires the result to be at least `minimum_token_amounts[i]`. -/
def depositLoop (ctx : DepositCtx) (minOuts : List Nat) :
    Nat → List TokenInfo → Nat → List Event → Option ExecError × List Event
  | _, [], _, evs => (none, evs)
  | i, ti :: rest, initialLamports, evs =>
    let ta := ctx.custody i
    if ta.mint ≠ ti.mint then (some (.basket .InvalidTokenMint), evs)
    else if ta.owner ≠ ctx.basket_key then (some (.basket .InvalidTokenOwner), evs)
    else if ctx.venueOk i = false then
      (some .cpiFailure, evs ++ [.venueCall i ta.amount])
    else
      let currentLamports := ctx.legLamports i
      match checkedSub currentLamports initialLamports with
      | none => (some (.basket .MathOverflow), evs ++ [.venueCall i ta.amount])
      | some lamportsSpent =>
        if lamportsSpent < minOuts.getD i 0 then
          (some (.basket .SlippageExceeded), evs ++ [.venueCall i ta.amount])
        else
          depositLoop ctx minOuts (i + 1) rest currentLamports
            (evs ++ [.venueCall i ta.amount])

/-- The `deposit` handler.  `ctx.basket_lamports` is the basket's lamport
balance before the user's SOL transfer, so the loop's first baseline read
(taken after that transfer) is `ctx.basket_lamports + amount`. -/
def deposit (basket : BasketState) (ctx : DepositCtx) (amount : Nat)
    (minOuts : List Nat) : ExecResult :=
  if basket.paused then ⟨some (.basket .ProgramPaused), basket, []⟩
  else if basket.reentrancy_guard then
    ⟨some (.basket .ReentrancyDetected), basket, []⟩
  else if amount < MINIMUM_DEPOSIT then
    ⟨some (.basket .InsufficientDeposit), basket, []⟩
  else if minOuts.length ≠ basket.tokens.length then
    ⟨some (.basket .InvalidTokenCount), basket, []⟩
  else
    let b1 : BasketState := { basket with reentrancy_guard := true }
    if ctx.remaining_count ≠ basket.tokens.length * 12 then
      ⟨some (.basket .InvalidAccountCount), b1, []⟩
    else if ctx.user_lamports < amount then ⟨some .cpiFailure, b1, []⟩
    else
      match checkedAdd64 b1.total_supply amount with
      | none => ⟨some (.basket .MathOverflow), b1, [.solToBasket amount]⟩
      | some newSupply =>
        let b2 : BasketState := { b1 with total_supply := newSupply }
        match depositLoop ctx minOuts 0 b2.tokens (ctx.basket_lamports + amount)
            [.solToBasket amount, .mintShares amount] with
        | (some e, evs) => ⟨some e, b2, evs⟩
        | (none, evs) => ⟨none, { b2 with reentrancy_guard := false }, evs⟩

/-- Caller-supplied execution context of `redeem`: account keys, the
deserialized data of the caller's `user_basket_token` account, the basket's
lamport balance when `initial_basket_lamports` is read, the lamport balance
observed after leg `i`'s Jupiter call, and whether that call completed. -/
structure RedeemCtx where
  basket_key : Nat
  user_key : Nat
  basket_mint_key : Nat
  user_basket_token : TokenAccountData
  basket_lamports : Nat
  remaining_count : Nat
  legLamports : Nat → Nat
  venueOk : Nat → Bool

/-- `redemption_ratio = (amount as u128).checked_mul(MAGNIFIER)?.checked_div(total_supply)?`
(source lines 333-337). -/
def redeemRatio (amount totalSupply : Nat) : Option Nat :=
  match checkedMul128 amount MAGNIFIER with
  | none => none
  | some p => checkedDiv p totalSupply

/-- `redeem_amount = ((token_amount as u128).checked_mul(ratio)?.checked_div(MAGNIFIER)?) as u64`
(source lines 382-386); the `as u64` cast truncates mod 2^64. -/
def legRedeemQty (held ratio : Nat) : Option Nat :=
  match checkedMul128 held ratio with
  | none => none
  | some p =>
    match checkedDiv p MAGNIFIER with
    | none => none
    | some q => some (q % U64MOD)

/-- The per-leg loop of `redeem` (source lines 364-421).  Note: the account it
deserializes for every leg is `ctx.accounts.user_basket_token` — the caller's
claim-token account — whose post-burn data `ta` is passed in; the constituent
custody accounts in `remaining_accounts` are never read. -/
def redeemLoop (ctx : RedeemCtx) (ta : TokenAccountData) (ratio : Nat)
    (initialLamports : Nat) :
    Nat → List TokenInfo → Nat → List Event → Option ExecError × Nat × List Event
  | _, [], tot, evs => (none, tot, evs)
  | i, ti :: rest, tot, evs =>
    if ta.mint ≠ ti.mint then (some (.basket .InvalidTokenMint), tot, evs)
    else if ta.owner ≠ ctx.basket_key then
      (some (.basket .InvalidTokenOwner), tot, evs)
    else
      match legRedeemQty ta.amount ratio with
      | none => (some (.basket .MathOverflow), tot, evs)
      | some redeemAmount =>
        if ctx.venueOk i = false then
          (some .cpiFailure, tot, evs ++ [.venueCall i redeemAmount])
        else
          let currentLamports := ctx.legLamports i
          match checkedSub currentLamports (initialLamports + tot) with
          | none => (some (.basket .MathOverflow), tot,
                     evs ++ [.venueCall i redeemAmount])
          | some solReceived =>
            redeemLoop ctx ta ratio initialLamports (i + 1) rest
              (tot + solReceived) (evs ++ [.venueCall i redeemAmount])

/-- The `redeem` handler.  The two leading checks are the Anchor accounts
constraints `user_basket_token.mint == basket_mint.key()` and
`user_basket_token.owner == user.key()`, enforced before the handler body.
The burn CPI fails when the caller's balance is below `amount`; afterwards the
loop re-deserializes `user_basket_token`, observing the post-burn amount. -/
def redeem (basket : BasketState) (ctx : RedeemCtx) (amount : Nat)
    (minimumSol : Nat) : ExecResult :=
  if ctx.user_basket_token.mint ≠ ctx.basket_mint_key then
    ⟨some .constraint, basket, []⟩
  else if ctx.user_basket_token.owner ≠ ctx.user_key then
    ⟨some .constraint, basket, []⟩
  else if basket.paused then ⟨some (.basket .ProgramPaused), basket, []⟩
  else if basket.reentrancy_guard then
    ⟨some (.basket .ReentrancyDetected), basket, []⟩
  else
    let b1 : BasketState := { basket with reentrancy_guard := true }
    if ctx.remaining_count ≠ basket.tokens.length * 12 then
      ⟨some (.basket .InvalidAccountCount), b1, []⟩
    else
      match redeemRatio amount b1.total_supply with
      | none => ⟨some (.basket .MathOverflow), b1, []⟩
      | some ratio =>
        match checkedSub b1.total_supply amount with
        | none => ⟨some (.basket .MathOverflow), b1, []⟩
        | some newSupply =>
          let b2 : BasketState := { b1 with total_supply := newSupply }
          if ctx.user_basket_token.amount < amount then ⟨some .cpiFailure, b2, []⟩
          else
            let taPost : TokenAccountData :=
              { ctx.user_basket_token with
                amount := ctx.user_basket_token.amount - amount }
            match redeemLoop ctx taPost ratio ctx.basket_lamports 0 b2.tokens 0
                [.burnShares amount] with
            | (some e, _, evs) => ⟨some e, b2, evs⟩
            | (none, tot, evs) =>
              if tot < minimumSol then ⟨some (.basket .SlippageExceeded), b2, evs⟩
              else ⟨none, { b2 with reentrancy_guard := false },
                    evs ++ [.solToUser tot]⟩

/-- One client-visible operation against the vault, with all caller-supplied
data. -/
inductive Op where
  | opAdd (caller token_mint weight : Nat)
  | opRemove (caller token_mint : Nat)
  | opSetPaused (caller : Nat) (p : Bool)
  | opDeposit (ctx : DepositCtx) (amount : Nat) (minOuts : List Nat)
  | opRedeem (ctx : RedeemCtx) (amount minimumSol : Nat)
  | opWithdraw (caller basketLamports amount : Nat)

/-- Transaction semantics of one operation on the persisted record: a failed
instruction leaves the record unchanged (host-level rollback);
`withdraw_authority_sol` never writes the record. -/
def applyOp (s : BasketState) : Op → BasketState
  | .opAdd c m w =>
    match add_token s c m w with
    | .ok s2 => s2
    | .error _ => s
  | .opRemove c m =>
    match remove_token s c m with
    | .ok s2 => s2
    | .error _ => s
  | .opSetPaused c p =>
    match set_paused s c p with
    | .ok s2 => s2
    | .error _ => s
  | .opDeposit ctx a mo =>
    let r := deposit s ctx a mo
    if r.err = none then r.state else s
  | .opRedeem ctx a m =>
    let r := redeem s ctx a m
    if r.err = none then r.state else s
  | .opWithdraw _ _ _ => s

/-- Run a sequence of operations from a starting record. -/
def runOps (s : BasketState) (ops : List Op) : BasketState :=
  ops.foldl applyOp s

/-- Replace every stored `token_account` reference by `v`, leaving all other
fields alone. -/
def withTA (v : Nat) (s : BasketState) : BasketState :=
  { s with tokens := s.tokens.map fun t => { t with token_account := v } }

/-! ### Basic lemmas about the embedded operations -/

theorem sumWeights_nil : sumWeights [] = 0 := rfl

theorem sumWeights_cons (t : TokenInfo) (ts : List TokenInfo) :
    sumWeights (t :: ts) = t.weight + sumWeights ts := by
  simp [sumWeights]

theorem sumWeights_append (ts1 ts2 : List TokenInfo) :
    sumWeights (ts1 ++ ts2) = sumWeights ts1 + sumWeights ts2 := by
  simp [sumWeights]

theorem sumWeights_eraseIdx_le (ts : List TokenInfo) (i : Nat) :
    sumWeights (ts.eraseIdx i) ≤ sumWeights ts := by
  induction ts generalizing i with
  | nil => simp [List.eraseIdx]
  | cons t rest ih =>
    cases i with
    | zero =>
      simp only [List.eraseIdx_cons_zero, sumWeights_cons]
      omega
    | succ j =>
      simp only [List.eraseIdx_cons_succ, sumWeights_cons]
      exact Nat.add_le_add_left (ih j) _

theorem mem_of_mem_eraseIdx (ts : List TokenInfo) (i : Nat) (t : TokenInfo)
    (h : t ∈ ts.eraseIdx i) : t ∈ ts := by
  induction ts generalizing i with
  | nil => simp [List.eraseIdx] at h
  | cons a rest ih =>
    cases i with
    | zero =>
      simp only [List.eraseIdx_cons_zero] at h
      exact List.mem_cons_of_mem _ h
    | succ j =>
      simp only [List.eraseIdx_cons_succ, List.mem_cons] at h
      rcases h with h | h
      · exact h ▸ List.mem_cons_self _ _
      · exact List.mem_cons_of_mem _ (ih j h)

theorem deposit_tokens_eq (s : BasketState) (ctx : DepositCtx) (a : Nat)
    (mo : List Nat) : (deposit s ctx a mo).state.tokens = s.tokens := by
  unfold deposit
  dsimp only
  repeat' split
  all_goals rfl

theorem redeem_tokens_eq (s : BasketState) (ctx : RedeemCtx) (a m : Nat) :
    (redeem s ctx a m).state.tokens = s.tokens := by
  unfold redeem
  dsimp only
  repeat' split
  all_goals rfl

theorem add_token_ok_tokens (s : BasketState) (c m w : Nat) (s2 : BasketState)
    (h : add_token s c m w = .ok s2) :
    s2.tokens = s.tokens ++ [{ mint := m, weight := w, token_account := 0 }] ∧
    sumWeightsU8 s.tokens + w ≤ 100 := by
  unfold add_token at h
  split at h
  · simp at h
  split at h
  · simp at h
  split at h
  · simp at h
  split at h
  · simp at h
  rename_i totalWeight heq
  split at h
  · simp at h
  split at h
  · simp at h
  cases h
  unfold checkedAdd8 at heq
  split at heq
  · rename_i hle
    injection heq with heq2
    constructor
    · rfl
    · omega
  · simp at heq

theorem remove_token_ok_tokens (s : BasketState) (c m : Nat) (s2 : BasketState)
    (h : remove_token s c m = .ok s2) :
    ∃ i, s2.tokens = s.tokens.eraseIdx i := by
  unfold remove_token at h
  split at h
  · simp at h
  split at h
  · simp at h
  split at h
  · simp at h
  cases h
  exact ⟨_, rfl⟩

theorem set_paused_ok_state (s : BasketState) (c : Nat) (p : Bool)
    (s2 : BasketState) (h : set_paused s c p = .ok s2) :
    s2.tokens = s.tokens := by
  unfold set_paused at h
  split at h
  · simp at h
  cases h
  rfl

theorem runOps_pres (P : BasketState → Prop)
    (hstep : ∀ s op, P s → P (applyOp s op)) (ops : List Op) :
    ∀ s, P s → P (runOps s ops) := by
  induction ops with
  | nil =>
    intro s h
    simpa [runOps] using h
  | cons op rest ih =>
    intro s h
    have hr : runOps s (op :: rest) = runOps (applyOp s op) rest := by
      simp [runOps]
    rw [hr]
    exact ih _ (hstep s op h)

theorem applyOp_sumWeights_le (s : BasketState) (op : Op)
    (h : sumWeights s.tokens ≤ 100) :
    sumWeights (applyOp s op).tokens ≤ 100 := by
  cases op with
  | opAdd c m w =>
    cases hadd : add_token s c m w with
    | error e => simp [applyOp, hadd, h]
    | ok s2 =>
      rcases add_token_ok_tokens s c m w s2 hadd with ⟨ht, hw⟩
      have hU8 : sumWeightsU8 s.tokens = sumWeights s.tokens :=
        Nat.mod_eq_of_lt (by omega)
      simp only [applyOp, hadd, ht, sumWeights_append, sumWeights_cons,
        sumWeights_nil]
      omega
  | opRemove c m =>
    cases hrem : remove_token s c m with
    | error e => simp [applyOp, hrem, h]
    | ok s2 =>
      rcases remove_token_ok_tokens s c m s2 hrem with ⟨i, hi⟩
      simp only [applyOp, hrem, hi]
      exact le_trans (sumWeights_eraseIdx_le s.tokens i) h
  | opSetPaused c p =>
    cases hsp : set_paused s c p with
    | error e => simp [applyOp, hsp, h]
    | ok s2 =>
      have := set_paused_ok_state s c p s2 hsp
      simp [applyOp, hsp, this, h]
  | opDeposit ctx a mo =>
    simp only [applyOp]
    split
    · rw [deposit_tokens_eq]; exact h
    · exact h
  | opRedeem ctx a m =>
    simp only [applyOp]
    split
    · rw [redeem_tokens_eq]; exact h
    · exact h
  | opWithdraw c la a => exact h

theorem applyOp_tazero (s : BasketState) (op : Op)
    (h : ∀ t ∈ s.tokens, t.token_account = 0) :
    ∀ t ∈ (applyOp s op).tokens, t.token_account = 0 := by
  cases op with
  | opAdd c m w =>
    cases hadd : add_token s c m w with
    | error e => simpa [applyOp, hadd] using h
    | ok s2 =>
      rcases add_token_ok_tokens s c m w s2 hadd with ⟨ht, _⟩
      intro t hmem
      simp only [applyOp, hadd, ht, List.mem_append, List.mem_singleton] at hmem
      rcases hmem with hmem | hmem
      · exact h t hmem
      · rw [hmem]
  | opRemove c m =>
    cases hrem : remove_token s c m with
    | error e => simpa [applyOp, hrem] using h
    | ok s2 =>
      rcases remove_token_ok_tokens s c m s2 hrem with ⟨i, hi⟩
      intro t hmem
      simp only [applyOp, hrem, hi] at hmem
      exact h t (mem_of_mem_eraseIdx s.tokens i t hmem)
  | opSetPaused c p =>
    cases hsp : set_paused s c p with
    | error e => simpa [applyOp, hsp] using h
    | ok s2 =>
      have := set_paused_ok_state s c p s2 hsp
      simpa [applyOp, hsp, this] using h
  | opDeposit ctx a mo =>
    simp only [applyOp]
    split
    · rw [deposit_tokens_eq]; exact h
    · exact h
  | opRedeem ctx a m =>
    simp only [applyOp]
    split
    · rw [redeem_tokens_eq]; exact h
    · exact h
  | opWithdraw c la a => exact h

theorem initVault_ok (auth mt bump : Nat) (s0 : BasketState)
    (h : initVault auth mt bump = .ok s0) :
    s0.tokens = [] := by
  unfold initVault at h
  split at h
  · simp at h
  cases h
  rfl

theorem depositLoop_map_ta (ctx : DepositCtx) (minOuts : List Nat) (v : Nat)
    (ts : List TokenInfo) :
    ∀ i il evs,
      depositLoop ctx minOuts i
        (ts.map fun t => { t with token_account := v }) il evs =
      depositLoop ctx minOuts i ts il evs := by
  induction ts with
  | nil => intro i il evs; rfl
  | cons t rest ih =>
    intro i il evs
    simp only [List.map_cons, depositLoop]
    rw [ih]

theorem deposit_withTA (v : Nat) (s : BasketState) (ctx : DepositCtx)
    (a : Nat) (mo : List Nat) :
    (deposit (withTA v s) ctx a mo).err = (deposit s ctx a mo).err ∧
    (deposit (withTA v s) ctx a mo).events = (deposit s ctx a mo).events := by
  unfold deposit withTA
  dsimp only
  simp only [List.length_map, depositLoop_map_ta]
  repeat' split
  all_goals simp_all

theorem mulMagnifier_lt (a : Nat) (ha : a < U64MOD) :
    a * MAGNIFIER < U128MOD := by
  have h1 : a * MAGNIFIER < U64MOD * MAGNIFIER :=
    mul_lt_mul_of_pos_right ha (by norm_num [MAGNIFIER])
  have h2 : U64MOD * MAGNIFIER < U128MOD := by
    norm_num [U64MOD, MAGNIFIER, U128MOD]
  exact lt_trans h1 h2

/-! ### Claim theorems -/

/-- A one-constituent vault state used to exhibit the redeem custody defect:
the single constituent has mint 2, the claim-token mint is 9. -/
def stC1 : BasketState :=
  { authority := 1, tokens := [{ mint := 2, weight := 50, token_account := 0 }],
    total_supply := 100, bump := 0, max_tokens := 10, paused := false,
    reentrancy_guard := false }

/-- A redeem context for `stC1` satisfying all Anchor constraints: the caller's
claim-token account has the claim-token mint 9 and is owned by the user 6,
while the basket key is 5. -/
def ctxC1 : RedeemCtx :=
  { basket_key := 5, user_key := 6, basket_mint_key := 9,
    user_basket_token := { mint := 9, owner := 6, amount := 100 },
    basket_lamports := 1000, remaining_count := 12,
    legLamports := fun _ => 1000, venueOk := fun _ => true }

/-- Claim C1: the spec says the balance used as `heldBalance` in Redeem is read
from the constituent's vault-owned custody token account.  The code instead
deserializes the caller's `user_basket_token` account (lines 366-371) for
every leg and applies the mint/owner validation to it.  Since the accounts
struct constrains that account to the claim-token mint and the user as owner,
the in-loop validation necessarily fails on any nonempty basket: here the leg
check rejects with `InvalidTokenMint` before any venue call (the only event is
the burn), and the account validated is owned by the user, not the vault. -/
theorem claim_C1 :
    (redeem stC1 ctxC1 50 0).err = some (.basket .InvalidTokenMint) ∧
    (redeem stC1 ctxC1 50 0).events = [.burnShares 50] ∧
    ctxC1.user_basket_token.owner = ctxC1.user_key ∧
    ctxC1.user_basket_token.owner ≠ ctxC1.basket_key := by
  refine ⟨by decide, by decide, rfl, by decide⟩

/-- A one-constituent vault state for the deposit slippage defect. -/
def stC2 : BasketState :=
  { authority := 1, tokens := [{ mint := 2, weight := 50, token_account := 0 }],
    total_supply := 0, bump := 0, max_tokens := 10, paused := false,
    reentrancy_guard := false }

/-- A deposit context for `stC2` in which the venue call succeeds normally:
the custody account matches the constituent and the basket, and the basket's
lamport balance after the leg's venue call is back at its pre-transfer level
(the venue consumed the freshly deposited SOL, the ordinary behaviour of a
SOL-to-token swap). -/
def ctxC2 : DepositCtx :=
  { basket_key := 5, user_key := 6, user_lamports := 1000000000,
    basket_lamports := 1000000000, remaining_count := 12,
    custody := fun _ => { mint := 2, owner := 5, amount := 100 },
    legLamports := fun _ => 1000000000, venueOk := fun _ => true }

/-- Claim C2: the spec says the per-leg slippage check compares the delta of
the vault's custody balance for the leg's asset against `minOutPerLeg[i]`.
The code instead computes `current_lamports.checked_sub(initial_lamports)` on
the basket's SOL balance (lines 292-300): with `minOutPerLeg = [0]` — a bound
no compliant slippage check can violate — a deposit whose venue leg succeeds
and consumes the deposited SOL aborts with `MathOverflow` because the basket's
lamports decreased, after the venue call was already issued. -/
theorem claim_C2 :
    (deposit stC2 ctxC2 MINIMUM_DEPOSIT [0]).err =
      some (.basket .MathOverflow) ∧
    (deposit stC2 ctxC2 MINIMUM_DEPOSIT [0]).events =
      [.solToBasket MINIMUM_DEPOSIT, .mintShares MINIMUM_DEPOSIT,
       .venueCall 0 100] := by
  refine ⟨by decide, by decide⟩

/-- Claim C5: the redemption ratio is `(amount * MAGNIFIER) / totalSupply`
computed in the widened `u128` domain, where the multiply cannot overflow for
any `u64` amount; the leg quantity is `(heldBalance * ratio) / MAGNIFIER`; and
at the spec's concrete values the results are exactly 500000000 and
100000000. -/
theorem claim_C5 :
    (∀ a ts, a < U64MOD → ts ≠ 0 →
       redeemRatio a ts = some (a * MAGNIFIER / ts)) ∧
    redeemRatio 500000000 1000000000 = some 500000000 ∧
    legRedeemQty 200000000 500000000 = some 100000000 := by
  refine ⟨?_, by decide, by decide⟩
  intro a ts ha hts
  have hmul : a * MAGNIFIER < U128MOD := mulMagnifier_lt a ha
  unfold redeemRatio checkedMul128 checkedDiv
  rw [if_pos hmul]
  simp [hts]

/-- Witness for C5 at a concrete input with the hypotheses discharged. -/
theorem claim_C5_witness :
    redeemRatio 3 7 = some (3 * MAGNIFIER / 7) :=
  claim_C5.1 3 7 (by norm_num [U64MOD]) (by norm_num)

/-- Claim C3: when `total_supply = 0`, Redeem (with its guards passing) fails
with `MathOverflow` raised by the `checked_div` inside the redemption-ratio
computation: no event is issued (no burn, no venue call) and the supply stored
in the record at the failure point is still the original one. -/
theorem claim_C3 (s : BasketState) (ctx : RedeemCtx) (a m : Nat)
    (hmint : ctx.user_basket_token.mint = ctx.basket_mint_key)
    (howner : ctx.user_basket_token.owner = ctx.user_key)
    (hp : s.paused = false) (hg : s.reentrancy_guard = false)
    (hc : ctx.remaining_count = s.tokens.length * 12)
    (hs : s.total_supply = 0) (ha : a < U64MOD) :
    (redeem s ctx a m).err = some (.basket .MathOverflow) ∧
    (redeem s ctx a m).events = [] ∧
    (redeem s ctx a m).state.total_supply = s.total_supply := by
  have hmul : a * MAGNIFIER < U128MOD := mulMagnifier_lt a ha
  have hr : redeemRatio a s.total_supply = none := by
    simp [redeemRatio, checkedMul128, checkedDiv, hmul, hs]
  refine ⟨?_, ?_, ?_⟩ <;>
    simp [redeem, hmint, howner, hp, hg, hc, hr]

/-- Witness for C3: an initialized empty vault with zero supply. -/
def sW3 : BasketState :=
  { authority := 1, tokens := [], total_supply := 0, bump := 0,
    max_tokens := 10, paused := false, reentrancy_guard := false }

/-- Witness redeem context for C3. -/
def rctxW3 : RedeemCtx :=
  { basket_key := 5, user_key := 6, basket_mint_key := 9,
    user_basket_token := { mint := 9, owner := 6, amount := 0 },
    basket_lamports := 0, remaining_count := 0,
    legLamports := fun _ => 0, venueOk := fun _ => true }

/-- Witness for C3 at a concrete input with the hypotheses discharged. -/
theorem claim_C3_witness :
    (redeem sW3 rctxW3 5 0).err = some (.basket .MathOverflow) ∧
    (redeem sW3 rctxW3 5 0).events = [] ∧
    (redeem sW3 rctxW3 5 0).state.total_supply = sW3.total_supply :=
  claim_C3 sW3 rctxW3 5 0 rfl rfl rfl rfl rfl rfl (by norm_num [U64MOD])

/-- Claim C4: whenever `amount > total_supply`, Redeem (with its guards
passing) fails with `MathOverflow` — from the checked subtraction when the
supply is positive, already from the ratio's division when it is zero — and
no event is issued, in particular the claim-token burn never executes. -/
theorem claim_C4 (s : BasketState) (ctx : RedeemCtx) (a m : Nat)
    (hmint : ctx.user_basket_token.mint = ctx.basket_mint_key)
    (howner : ctx.user_basket_token.owner = ctx.user_key)
    (hp : s.paused = false) (hg : s.reentrancy_guard = false)
    (hc : ctx.remaining_count = s.tokens.length * 12)
    (ha : a < U64MOD) (hgt : s.total_supply < a) :
    (redeem s ctx a m).err = some (.basket .MathOverflow) ∧
    (redeem s ctx a m).events = [] := by
  have hmul : a * MAGNIFIER < U128MOD := mulMagnifier_lt a ha
  rcases Nat.eq_zero_or_pos s.total_supply with h0 | hpos
  · have hr : redeemRatio a s.total_supply = none := by
      simp [redeemRatio, checkedMul128, checkedDiv, hmul, h0]
    refine ⟨?_, ?_⟩ <;> simp [redeem, hmint, howner, hp, hg, hc, hr]
  · have hr : redeemRatio a s.total_supply =
        some (a * MAGNIFIER / s.total_supply) := by
      simp [redeemRatio, checkedMul128, checkedDiv, hmul, Nat.pos_iff_ne_zero.mp hpos]
    have hsub : checkedSub s.total_supply a = none := by
      unfold checkedSub
      rw [if_neg (by omega)]
    refine ⟨?_, ?_⟩ <;> simp [redeem, hmint, howner, hp, hg, hc, hr, hsub]

/-- Witness for C4: a vault with supply 10 redeemed for 20. -/
def sW4 : BasketState :=
  { authority := 1, tokens := [], total_supply := 10, bump := 0,
    max_tokens := 10, paused := false, reentrancy_guard := false }

/-- Witness redeem context for C4. -/
def rctxW4 : RedeemCtx :=
  { basket_key := 5, user_key := 6, basket_mint_key := 9,
    user_basket_token := { mint := 9, owner := 6, amount := 30 },
    basket_lamports := 0, remaining_count := 0,
    legLamports := fun _ => 0, venueOk := fun _ => true }

/-- Witness for C4 at a concrete input with the hypotheses discharged. -/
theorem claim_C4_witness :
    (redeem sW4 rctxW4 20 0).err = some (.basket .MathOverflow) ∧
    (redeem sW4 rctxW4 20 0).events = [] :=
  claim_C4 sW4 rctxW4 20 0 rfl rfl rfl rfl rfl
    (by norm_num [U64MOD]) (by norm_num [sW4])

/-- Claim C7: invoking Deposit or Redeem while `reentrancy_guard` already
holds (and the pause guard, which is tested first, passes) fails with
`ReentrancyDetected`, returning the untouched record and an empty event
trace — no mutation, no external call. -/
theorem claim_C7 (s : BasketState) (dctx : DepositCtx) (rctx : RedeemCtx)
    (a : Nat) (mo : List Nat) (a2 m2 : Nat)
    (hmint : rctx.user_basket_token.mint = rctx.basket_mint_key)
    (howner : rctx.user_basket_token.owner = rctx.user_key)
    (hp : s.paused = false) (hg : s.reentrancy_guard = true) :
    deposit s dctx a mo = ⟨some (.basket .ReentrancyDetected), s, []⟩ ∧
    redeem s rctx a2 m2 = ⟨some (.basket .ReentrancyDetected), s, []⟩ := by
  constructor
  · simp [deposit, hp, hg]
  · simp [redeem, hmint, howner, hp, hg]

/-- Witness for C7: a locked vault. -/
def sW7 : BasketState :=
  { authority := 1, tokens := [], total_supply := 0, bump := 0,
    max_tokens := 10, paused := false, reentrancy_guard := true }

/-- Witness deposit context for C7. -/
def dctxW7 : DepositCtx :=
  { basket_key := 5, user_key := 6, user_lamports := 0, basket_lamports := 0,
    remaining_count := 0, custody := fun _ => { mint := 0, owner := 0, amount := 0 },
    legLamports := fun _ => 0, venueOk := fun _ => true }

/-- Witness redeem context for C7. -/
def rctxW7 : RedeemCtx :=
  { basket_key := 5, user_key := 6, basket_mint_key := 9,
    user_basket_token := { mint := 9, owner := 6, amount := 0 },
    basket_lamports := 0, remaining_count := 0,
    legLamports := fun _ => 0, venueOk := fun _ => true }

/-- Witness for C7 at a concrete input with the hypotheses discharged. -/
theorem claim_C7_witness :
    deposit sW7 dctxW7 0 [] = ⟨some (.basket .ReentrancyDetected), sW7, []⟩ ∧
    redeem sW7 rctxW7 0 0 = ⟨some (.basket .ReentrancyDetected), sW7, []⟩ :=
  claim_C7 sW7 dctxW7 rctxW7 0 [] 0 0 rfl rfl rfl rfl

/-- Claim C8: while paused, Deposit, Redeem, AddToken and RemoveToken all fail
with `ProgramPaused` (Deposit and Redeem without mutation or events; AddToken
and RemoveToken when the caller is the authority, since Anchor's `has_one`
check runs first), while `withdraw_authority_sol` reads neither the pause flag
nor the reentrancy lock and, for the authority and any requested amount within
the basket's lamport balance, succeeds moving exactly that amount. -/
theorem claim_C8 (s : BasketState) (dctx : DepositCtx) (rctx : RedeemCtx)
    (a : Nat) (mo : List Nat) (a2 m2 tm w : Nat)
    (hp : s.paused = true)
    (hmint : rctx.user_basket_token.mint = rctx.basket_mint_key)
    (howner : rctx.user_basket_token.owner = rctx.user_key) :
    deposit s dctx a mo = ⟨some (.basket .ProgramPaused), s, []⟩ ∧
    redeem s rctx a2 m2 = ⟨some (.basket .ProgramPaused), s, []⟩ ∧
    add_token s s.authority tm w = .error .ProgramPaused ∧
    remove_token s s.authority tm = .error .ProgramPaused ∧
    (∀ p g la amt, amt ≤ la →
       withdraw_authority_sol { s with paused := p, reentrancy_guard := g }
         s.authority la amt = .ok (la - amt, amt)) := by
  refine ⟨by simp [deposit, hp], by simp [redeem, hmint, howner, hp],
    by simp [add_token, hp], by simp [remove_token, hp], ?_⟩
  intro p g la amt hle
  simp [withdraw_authority_sol, Nat.not_lt.mpr hle]

/-- Witness for C8: a paused vault. -/
def sW8 : BasketState :=
  { authority := 1, tokens := [], total_supply := 0, bump := 0,
    max_tokens := 10, paused := true, reentrancy_guard := false }

/-- Witness deposit context for C8. -/
def dctxW8 : DepositCtx :=
  { basket_key := 5, user_key := 6, user_lamports := 0, basket_lamports := 0,
    remaining_count := 0, custody := fun _ => { mint := 0, owner := 0, amount := 0 },
    legLamports := fun _ => 0, venueOk := fun _ => true }

/-- Witness redeem context for C8. -/
def rctxW8 : RedeemCtx :=
  { basket_key := 5, user_key := 6, basket_mint_key := 9,
    user_basket_token := { mint := 9, owner := 6, amount := 0 },
    basket_lamports := 0, remaining_count := 0,
    legLamports := fun _ => 0, venueOk := fun _ => true }

/-- Witness for C8 at a concrete input with the hypotheses discharged: the
paused deposit rejects, and a withdrawal of 20 out of 50 lamports succeeds
even with both guard flags set. -/
theorem claim_C8_witness :
    deposit sW8 dctxW8 0 [] = ⟨some (.basket .ProgramPaused), sW8, []⟩ ∧
    withdraw_authority_sol { sW8 with paused := true, reentrancy_guard := true }
      sW8.authority 50 20 = .ok (30, 20) :=
  ⟨(claim_C8 sW8 dctxW8 rctxW8 0 [] 0 0 0 0 rfl rfl rfl).1,
   (claim_C8 sW8 dctxW8 rctxW8 0 [] 0 0 0 0 rfl rfl rfl).2.2.2.2
     true true 50 20 (by norm_num)⟩

/-- Claim C9 (amended): Deposit supplied with a `minOutPerLeg` list whose
length differs from the constituent count fails with `InvalidTokenCount`
before any event — in particular before any venue call; Redeem carries no
per-leg minimum-output list (its minimum is the single scalar
`minimum_sol_amount`), and its pre-venue length validation is the
`N * 12` trailing-account count check, which likewise fails before any
event. -/
theorem claim_C9 (s : BasketState) (dctx : DepositCtx) (rctx : RedeemCtx)
    (hmint : rctx.user_basket_token.mint = rctx.basket_mint_key)
    (howner : rctx.user_basket_token.owner = rctx.user_key)
    (hp : s.paused = false) (hg : s.reentrancy_guard = false) :
    (∀ a mo, MINIMUM_DEPOSIT ≤ a → mo.length ≠ s.tokens.length →
       deposit s dctx a mo = ⟨some (.basket .InvalidTokenCount), s, []⟩) ∧
    (∀ a m, rctx.remaining_count ≠ s.tokens.length * 12 →
       redeem s rctx a m =
         ⟨some (.basket .InvalidAccountCount),
          { s with reentrancy_guard := true }, []⟩) := by
  constructor
  · intro a mo hmin hlen
    simp [deposit, hp, hg, Nat.not_lt.mpr hmin, hlen]
  · intro a m hcnt
    simp [redeem, hmint, howner, hp, hg, hcnt]

/-- A two-constituent vault used to refute the Redeem half of C9 as stated.
Both keys that the in-loop validation compares against are chosen so the
validation of leg 0 passes (`user_key = basket_key = 7`; the first constituent
mint equals the claim-token mint 3), letting execution reach a venue call. -/
def stC9 : BasketState :=
  { authority := 1,
    tokens := [{ mint := 3, weight := 50, token_account := 0 },
               { mint := 4, weight := 50, token_account := 0 }],
    total_supply := 100, bump := 0, max_tokens := 10, paused := false,
    reentrancy_guard := false }

/-- Redeem context for `stC9`. -/
def ctxC9 : RedeemCtx :=
  { basket_key := 7, user_key := 7, basket_mint_key := 3,
    user_basket_token := { mint := 3, owner := 7, amount := 100 },
    basket_lamports := 1000, remaining_count := 24,
    legLamports := fun _ => 1010, venueOk := fun _ => true }

/-- Counterexample to C9 as stated: the claim demands that a Redeem whose
per-leg minimum-output information does not match the two constituents fail
before any external venue call.  Redeem's minimum is the single scalar `0`
(there is no per-leg list to supply at all), yet this execution issues the
venue call of leg 0: the claim's Redeem half is false on the code. -/
theorem claim_C9_counterexample :
    stC9.tokens.length = 2 ∧
    Event.venueCall 0 25 ∈ (redeem stC9 ctxC9 50 0).events := by
  refine ⟨rfl, by decide⟩

/-- Witness vault for C9: one constituent. -/
def sW9 : BasketState :=
  { authority := 1, tokens := [{ mint := 2, weight := 50, token_account := 0 }],
    total_supply := 0, bump := 0, max_tokens := 10, paused := false,
    reentrancy_guard := false }

/-- Witness deposit context for C9. -/
def dctxW9 : DepositCtx :=
  { basket_key := 5, user_key := 6, user_lamports := 0, basket_lamports := 0,
    remaining_count := 0, custody := fun _ => { mint := 0, owner := 0, amount := 0 },
    legLamports := fun _ => 0, venueOk := fun _ => true }

/-- Witness redeem context for C9, with a wrong trailing-account count. -/
def rctxW9 : RedeemCtx :=
  { basket_key := 5, user_key := 6, basket_mint_key := 9,
    user_basket_token := { mint := 9, owner := 6, amount := 0 },
    basket_lamports := 0, remaining_count := 11,
    legLamports := fun _ => 0, venueOk := fun _ => true }

/-- Witness for C9 at concrete inputs with the hypotheses discharged: an empty
minimum list against one constituent, and an 11-account block against the
required 12. -/
theorem claim_C9_witness :
    deposit sW9 dctxW9 MINIMUM_DEPOSIT [] =
      ⟨some (.basket .InvalidTokenCount), sW9, []⟩ ∧
    redeem sW9 rctxW9 0 0 =
      ⟨some (.basket .InvalidAccountCount),
       { sW9 with reentrancy_guard := true }, []⟩ :=
  ⟨(claim_C9 sW9 dctxW9 rctxW9 rfl rfl rfl rfl).1 MINIMUM_DEPOSIT []
     (le_refl _) (by decide),
   (claim_C9 sW9 dctxW9 rctxW9 rfl rfl rfl rfl).2 0 0 (by decide)⟩

/-- Claim C6: from any initialized vault, no sequence of operations brings the
stored weight sum above 100; and an `add_token` whose weight would push the
sum past 100 — with the earlier guards passing — fails with `WeightOverflow`
and leaves the record (hence the constituent list, length, entries and order)
unchanged. -/
theorem claim_C6 (auth mt bump : Nat) (s0 : BasketState) (ops : List Op)
    (hinit : initVault auth mt bump = .ok s0) :
    sumWeights (runOps s0 ops).tokens ≤ 100 ∧
    (∀ s c m w, sumWeights s.tokens ≤ 100 → s.paused = false →
       s.authority = c → s.tokens.length < s.max_tokens →
       100 < sumWeights s.tokens + w →
       add_token s c m w = .error .WeightOverflow ∧
       applyOp s (.opAdd c m w) = s) := by
  constructor
  · have h0 : sumWeights s0.tokens ≤ 100 := by
      rw [initVault_ok auth mt bump s0 hinit]
      simp [sumWeights]
    exact runOps_pres (fun s => sumWeights s.tokens ≤ 100)
      applyOp_sumWeights_le ops s0 h0
  · intro s c m w hsum hp hauth hlen hover
    have hU8 : sumWeightsU8 s.tokens = sumWeights s.tokens :=
      Nat.mod_eq_of_lt (by omega)
    have herr : add_token s c m w = .error .WeightOverflow := by
      unfold add_token checkedAdd8
      rw [hU8, if_neg (by simp [hauth]), if_neg (by simp [hp]),
          if_neg (by simp [hlen])]
      rcases le_or_lt (sumWeights s.tokens + w) 255 with h255 | h255
      · rw [if_pos h255]
        dsimp only
        rw [if_pos (by omega)]
      · rw [if_neg (by omega)]
    exact ⟨herr, by simp [applyOp, herr]⟩

/-- Witness initial state for C6. -/
def initW6 : BasketState :=
  { authority := 1, tokens := [], total_supply := 0, bump := 0,
    max_tokens := 10, paused := false, reentrancy_guard := false }

/-- Witness operation sequence for C6: three added constituents summing to
95, then an authority over-addition and an unauthorized call. -/
def opsW6 : List Op :=
  [Op.opAdd 1 11 60, Op.opAdd 1 12 30, Op.opAdd 1 13 5,
   Op.opAdd 1 14 50, Op.opAdd 2 15 1]

/-- Witness for C6 at a concrete input with the hypotheses discharged. -/
theorem claim_C6_witness :
    sumWeights (runOps initW6 opsW6).tokens ≤ 100 :=
  (claim_C6 1 10 0 initW6 opsW6 rfl).1

/-- Claim C10: in every vault state reachable from an initialized vault,
every stored `token_account` reference is the default (zero) key — AddToken
always stores `Pubkey::default()` and nothing overwrites it — and Deposit's
outcome (error and event trace, hence the custody accounts it operates on) is
unchanged when every stored `token_account` reference is replaced by an
arbitrary key: the custody data it uses comes from the caller-supplied
trailing accounts (`ctx.custody`), not from the registry. -/
theorem claim_C10 (auth mt bump : Nat) (s0 : BasketState) (ops : List Op)
    (hinit : initVault auth mt bump = .ok s0) :
    (∀ t ∈ (runOps s0 ops).tokens, t.token_account = 0) ∧
    (∀ v s dctx a mo,
       (deposit (withTA v s) dctx a mo).err = (deposit s dctx a mo).err ∧
       (deposit (withTA v s) dctx a mo).events = (deposit s dctx a mo).events) := by
  constructor
  · have h0 : ∀ t ∈ s0.tokens, t.token_account = 0 := by
      rw [initVault_ok auth mt bump s0 hinit]
      intro t ht
      simp at ht
    exact runOps_pres (fun s => ∀ t ∈ s.tokens, t.token_account = 0)
      applyOp_tazero ops s0 h0
  · intro v s dctx a mo
    exact deposit_withTA v s dctx a mo

/-- Witness initial state for C10. -/
def initW10 : BasketState :=
  { authority := 1, tokens := [], total_supply := 0, bump := 0,
    max_tokens := 10, paused := false, reentrancy_guard := false }

/-- Witness state for C10's second conjunct: a vault whose single registry
entry carries a nonzero `token_account` reference. -/
def sW10 : BasketState :=
  { authority := 1, tokens := [{ mint := 2, weight := 50, token_account := 7 }],
    total_supply := 100, bump := 0, max_tokens := 10, paused := false,
    reentrancy_guard := false }

/-- Witness deposit context for C10. -/
def dctxW10 : DepositCtx :=
  { basket_key := 5, user_key := 6, user_lamports := 1000000000,
    basket_lamports := 1000000000, remaining_count := 12,
    custody := fun _ => { mint := 2, owner := 5, amount := 100 },
    legLamports := fun _ => 1000000000, venueOk := fun _ => true }

/-- Witness for C10 at a concrete input with the hypotheses discharged. -/
theorem claim_C10_witness :
    (deposit (withTA 9 sW10) dctxW10 MINIMUM_DEPOSIT [0]).err =
      (deposit sW10 dctxW10 MINIMUM_DEPOSIT [0]).err :=
  ((claim_C10 1 10 0 initW10 [] rfl).2 9 sW10 dctxW10 MINIMUM_DEPOSIT [0]).1

end BasketToken
